import Mathlib

/-!
Verification of the Recipe-Generator frontend core: the basket controller
(`handleGenerateRecipe` in `client/src/components/RecipeGenerator.tsx`) and the
recipe service client (`api.ts`: `fetchIngredients`, `addIngredient`,
`generateRecipe`, `fetchRecipeHistory`).

The controller is embedded as a pure function from its inputs (the selected
ingredient ids, the ingredient catalog, and the service client's behaviour on
a list of names) to the ordered list of observable steps it performs: state
updates (`setError` / `setIsGenerating`), console warnings, the network call,
and delivery of the generated recipe to `onRecipeGenerated`.  Debug-only
`console.log` calls are not recorded as steps.  The service client functions
are embedded as functions over an abstract transport `send : Request → Except ε α`
standing for the axios instance: `Except.error` is a transport/HTTP failure
thrown by axios, `Except.ok` is a success-status response carrying the decoded
body (`Option` models a missing/falsy `response.data` or nested field).
-/

namespace RecipeGen

/-- The `Ingredient` interface of `api.ts` (backend MongoDB model shape). -/
structure Ingredient where
  _id : String
  name : String
  createdAt : String
  updatedAt : String
  __v : Option Nat
deriving Repr, DecidableEq

/-- The `Recipe` interface of `api.ts`. -/
structure Recipe where
  _id : String
  ingredients : List String
  title : String
  instructions : String
  createdAt : String
  updatedAt : String
  __v : Option Nat
deriving Repr, DecidableEq

/-- One observable step performed by `handleGenerateRecipe`:
React state updates, a `console.warn`, the `generateRecipe` network call,
or the `onRecipeGenerated` callback. -/
inductive Step where
  | setError (e : Option String)
  | setGenerating (b : Bool)
  | warn (msg : String)
  | callService (names : List String)
  | deliverRecipe (r : Recipe)
deriving Repr, DecidableEq, BEq

/-- Lines 31–34 of `RecipeGenerator.tsx`: map each selected id to the `name`
of the first catalog entry whose `_id` equals it (or `null`), then filter the
`null`s out. -/
def selectedIngredientNames (selectedIngredientIds : List String)
    (ingredients : List Ingredient) : List String :=
  (selectedIngredientIds.map (fun id =>
    match ingredients.find? (fun i => i._id == id) with
    | some ingredient => some ingredient.name
    | none => none)).filterMap (fun name => name)

/-- Lines 21–59 of `RecipeGenerator.tsx` (`handleGenerateRecipe`), as the list
of observable steps it performs.  `svc` is the behaviour of the imported
`generateRecipe` service call on a list of names: `Except.ok` a recipe, or
`Except.error` the thrown error's `message` (an empty string standing for a
missing/empty message, in which case the catch block falls back to its fixed
text). -/
def handleGenerateRecipe (selectedIngredientIds : List String)
    (ingredients : List Ingredient)
    (svc : List String → Except String Recipe) : List Step :=
  if selectedIngredientIds.length = 0 then
    [Step.setError (some "Please select ingredients first.")]
  else
    Step.setGenerating true :: Step.setError none ::
    (if (selectedIngredientNames selectedIngredientIds ingredients).length = 0 ∧
        0 < selectedIngredientIds.length then
      [Step.setError (some "Could not find names for selected ingredients."),
       Step.setGenerating false]
    else
      (if (selectedIngredientNames selectedIngredientIds ingredients).length ≠
          selectedIngredientIds.length then
        [Step.warn "Some selected ingredient IDs did not map to names."]
      else []) ++
      Step.callService (selectedIngredientNames selectedIngredientIds ingredients) ::
      ((match svc (selectedIngredientNames selectedIngredientIds ingredients) with
        | Except.ok recipe => [Step.deliverRecipe recipe]
        | Except.error err =>
            [Step.setError (some (if err = "" then
              "Failed to generate recipe. Please try again." else err))]) ++
       [Step.setGenerating false]))

/-- The name lists sent to the service client, in order, in a step trace. -/
def serviceCalls (steps : List Step) : List (List String) :=
  steps.filterMap (fun s =>
    match s with
    | Step.callService names => some names
    | _ => none)

/-- Whether a `console.warn` was emitted in a step trace. -/
def warned (steps : List Step) : Bool :=
  steps.any (fun s =>
    match s with
    | Step.warn _ => true
    | _ => false)

/-- Value of the `isGenerating` state after a step trace, starting from the
`useState(false)` initial value. -/
def isGeneratingAfter (steps : List Step) : Bool :=
  steps.foldl (fun b s =>
    match s with
    | Step.setGenerating v => v
    | _ => b) false

/-- Number of `setIsGenerating` updates in a step trace. -/
def generatingUpdates (steps : List Step) : Nat :=
  (steps.filter (fun s =>
    match s with
    | Step.setGenerating _ => true
    | _ => false)).length

/-- Lines 109–112 of `RecipeGenerator.tsx`: the generate button is rendered
disabled while a generation is in flight or nothing is selected. -/
def generateButtonDisabled (isGenerating : Bool)
    (selectedIngredientIds : List String) : Bool :=
  isGenerating || selectedIngredientIds.length == 0

/-- A click on the generate button: a disabled button fires no `onClick`
(standard DOM semantics), otherwise `handleGenerateRecipe` runs. -/
def clickGenerate (isGenerating : Bool) (selectedIngredientIds : List String)
    (ingredients : List Ingredient)
    (svc : List String → Except String Recipe) : List Step :=
  if generateButtonDisabled isGenerating selectedIngredientIds then []
  else handleGenerateRecipe selectedIngredientIds ingredients svc

/-! ## The recipe service client (`api.ts`) -/

/-- Request body shapes built by `api.ts`: `{ item: name }`, `{ items: names }`,
or none (GET requests). -/
inductive Body where
  | itemBody (item : String)
  | itemsBody (items : List String)
  | empty
deriving Repr, DecidableEq

/-- An HTTP request issued through the axios instance: method, path relative
to the configured base URL, and body. -/
structure Request where
  method : String
  path : String
  body : Body
deriving Repr, DecidableEq

/-- The `baseURL` configured on the axios instance in `api.ts`. -/
def API_BASE_URL : String :=
  "https://recipe-generator-backend-vqb7.onrender.com/api/"

/-- Decoded `response.data` of `POST /items/add`: the backend envelope
`{ message, item }`, with each field possibly missing/falsy. -/
structure ItemEnvelope where
  message : Option String
  item : Option Ingredient
deriving Repr, DecidableEq

/-- Decoded `response.data` of `POST /recipes/basket/generate-recipe`: the
backend envelope `{ message, recipe }`, with each field possibly missing. -/
structure RecipeEnvelope where
  message : Option String
  recipe : Option Recipe
deriving Repr, DecidableEq

/-- An error surfaced by the service client to its caller: a transport/HTTP
error rethrown from axios, or the `Error` thrown for an invalid response
structure. -/
inductive ApiError where
  | transport (err : String)
  | malformed (msg : String)
deriving Repr, DecidableEq

/-- The request built on line 65 of `api.ts`:
`api.post('/items/add', { item: ingredientName })`. -/
def addIngredientRequest (ingredientName : String) : Request :=
  Request.mk "POST" "/items/add" (Body.itemBody ingredientName)

/-- The request built on line 87 of `api.ts`:
`api.post('/recipes/basket/generate-recipe', { items: ingredientNames })`. -/
def generateRecipeRequest (ingredientNames : List String) : Request :=
  Request.mk "POST" "/recipes/basket/generate-recipe" (Body.itemsBody ingredientNames)

/-- `addIngredient` (lines 61–76 of `api.ts`): POST the name, then throw
`Error("Invalid response structure from addIngredient API")` when
`!response.data || !response.data.item`, else return `response.data.item`.
The catch block rethrows every error unchanged. -/
def addIngredient (send : Request → Except String (Option ItemEnvelope))
    (ingredientName : String) : Except ApiError Ingredient :=
  match send (addIngredientRequest ingredientName) with
  | Except.error err => Except.error (ApiError.transport err)
  | Except.ok none =>
      Except.error (ApiError.malformed "Invalid response structure from addIngredient API")
  | Except.ok (some data) =>
      match data.item with
      | none =>
          Except.error (ApiError.malformed "Invalid response structure from addIngredient API")
      | some it => Except.ok it

/-- `generateRecipe` (lines 83–98 of `api.ts`): POST the names, then throw
`Error("Invalid response structure from generateRecipe API")` when
`!response.data || !response.data.recipe`, else return `response.data.recipe`.
The catch block rethrows every error unchanged. -/
def generateRecipe (send : Request → Except String (Option RecipeEnvelope))
    (ingredientNames : List String) : Except ApiError Recipe :=
  match send (generateRecipeRequest ingredientNames) with
  | Except.error err => Except.error (ApiError.transport err)
  | Except.ok none =>
      Except.error (ApiError.malformed "Invalid response structure from generateRecipe API")
  | Except.ok (some data) =>
      match data.recipe with
      | none =>
          Except.error (ApiError.malformed "Invalid response structure from generateRecipe API")
      | some r => Except.ok r

/-- `fetchIngredients` (lines 43–54 of `api.ts`): `api.get('/items')`, return
`response.data` verbatim; the catch block rethrows the error unchanged. -/
def fetchIngredients (send : Request → Except String (List Ingredient)) :
    Except String (List Ingredient) :=
  match send (Request.mk "GET" "/items" Body.empty) with
  | Except.ok response => Except.ok response
  | Except.error error => Except.error error

/-- `fetchRecipeHistory` (lines 104–114 of `api.ts`): `api.get('/recipes/history')`,
return `response.data` verbatim; the catch block rethrows the error unchanged. -/
def fetchRecipeHistory (send : Request → Except String (List Recipe)) :
    Except String (List Recipe) :=
  match send (Request.mk "GET" "/recipes/history" Body.empty) with
  | Except.ok response => Except.ok response
  | Except.error error => Except.error error

/-! ## Helper lemmas about name resolution -/

theorem selectedIngredientNames_eq_filterMap (ids : List String)
    (ing : List Ingredient) :
    selectedIngredientNames ids ing =
      ids.filterMap (fun id => (ing.find? (fun i => i._id == id)).map Ingredient.name) := by
  unfold selectedIngredientNames
  rw [List.filterMap_map]
  congr 1
  funext id
  cases h : ing.find? (fun i => i._id == id) <;> simp [Function.comp, h]

theorem selectedIngredientNames_cons (id : String) (ids : List String)
    (ing : List Ingredient) :
    selectedIngredientNames (id :: ids) ing =
      match ing.find? (fun i => i._id == id) with
      | some i => i.name :: selectedIngredientNames ids ing
      | none => selectedIngredientNames ids ing := by
  rw [selectedIngredientNames_eq_filterMap, List.filterMap_cons,
    selectedIngredientNames_eq_filterMap]
  cases ing.find? (fun i => i._id == id) <;> rfl

theorem selectedIngredientNames_append (a b : List String)
    (ing : List Ingredient) :
    selectedIngredientNames (a ++ b) ing =
      selectedIngredientNames a ing ++ selectedIngredientNames b ing := by
  simp [selectedIngredientNames_eq_filterMap, List.filterMap_append]

theorem selectedIngredientNames_length_le (ids : List String)
    (ing : List Ingredient) :
    (selectedIngredientNames ids ing).length ≤ ids.length := by
  rw [selectedIngredientNames_eq_filterMap]
  exact List.length_filterMap_le _ _

theorem selectedIngredientNames_all_some (ids : List String)
    (ing : List Ingredient)
    (h : ∀ id ∈ ids, (ing.find? (fun i => i._id == id)).isSome) :
    (selectedIngredientNames ids ing).length = ids.length ∧
    ∀ k : Nat, (selectedIngredientNames ids ing)[k]? =
      (ids[k]?.bind (fun id => ing.find? (fun i => i._id == id))).map Ingredient.name := by
  induction ids with
  | nil => simp [selectedIngredientNames]
  | cons a l ih =>
    obtain ⟨i, hi⟩ := Option.isSome_iff_exists.mp (h a (List.mem_cons_self a l))
    have ihl := ih (fun id hid => h id (List.mem_cons_of_mem a hid))
    rw [selectedIngredientNames_cons, hi]
    refine ⟨by simp [ihl.1], ?_⟩
    intro k
    cases k with
    | zero => simp [hi]
    | succ k => simpa using ihl.2 k

theorem selectedIngredientNames_eq_nil (ids : List String)
    (ing : List Ingredient)
    (h : ∀ id ∈ ids, ing.find? (fun i => i._id == id) = none) :
    selectedIngredientNames ids ing = [] := by
  induction ids with
  | nil => simp [selectedIngredientNames]
  | cons a l ih =>
    rw [selectedIngredientNames_cons, h a (List.mem_cons_self a l)]
    exact ih (fun id hid => h id (List.mem_cons_of_mem a hid))

theorem selectedIngredientNames_ne_nil (ids : List String)
    (ing : List Ingredient)
    (h : ∃ id ∈ ids, (ing.find? (fun i => i._id == id)).isSome) :
    selectedIngredientNames ids ing ≠ [] := by
  induction ids with
  | nil => simp at h
  | cons a l ih =>
    rw [selectedIngredientNames_cons]
    rcases h with ⟨id, hid, hsome⟩
    rcases List.mem_cons.mp hid with rfl | hmem
    · obtain ⟨i, hi⟩ := Option.isSome_iff_exists.mp hsome
      rw [hi]
      simp
    · cases hfa : ing.find? (fun i => i._id == a) with
      | some i => simp
      | none => exact ih ⟨id, hmem, hsome⟩

theorem selectedIngredientNames_length_lt (ids : List String)
    (ing : List Ingredient)
    (h : ∃ id ∈ ids, ing.find? (fun i => i._id == id) = none) :
    (selectedIngredientNames ids ing).length < ids.length := by
  induction ids with
  | nil => simp at h
  | cons a l ih =>
    rw [selectedIngredientNames_cons]
    rcases h with ⟨id, hid, hnone⟩
    rcases List.mem_cons.mp hid with rfl | hmem
    · rw [hnone]
      simpa [Nat.lt_succ_iff] using selectedIngredientNames_length_le l ing
    · cases hfa : ing.find? (fun i => i._id == a) with
      | some i => simpa using ih ⟨id, hmem, hnone⟩
      | none =>
        exact Nat.lt_succ_of_lt (ih ⟨id, hmem, hnone⟩)

theorem find?_first_match (pre suf : List Ingredient) (i : Ingredient)
    (id : String) (hid : i._id = id) (hpre : ∀ j ∈ pre, j._id ≠ id) :
    (pre ++ i :: suf).find? (fun j => j._id == id) = some i := by
  induction pre with
  | nil => simp [List.find?, hid]
  | cons a l ih =>
    have ha : (a._id == id) = false := by
      simpa using hpre a (List.mem_cons_self a l)
    rw [List.cons_append, List.find?_cons_of_neg, ih]
    · exact fun j hj => hpre j (List.mem_cons_of_mem a hj)
    · simp [ha]

theorem selectedIngredientNames_replicate (ing : List Ingredient)
    (id : String) (i : Ingredient)
    (h : ing.find? (fun j => j._id == id) = some i) (n : Nat) :
    selectedIngredientNames (List.replicate n id) ing = List.replicate n i.name := by
  induction n with
  | zero => simp [selectedIngredientNames]
  | succ n ih =>
    rw [List.replicate_succ, selectedIngredientNames_cons, h, ih,
      List.replicate_succ]

/-! ## Trace characterization lemmas for the controller -/

theorem handleGenerateRecipe_nil (ing : List Ingredient)
    (svc : List String → Except String Recipe) :
    handleGenerateRecipe [] ing svc =
      [Step.setError (some "Please select ingredients first.")] := by
  simp [handleGenerateRecipe]

theorem handleGenerateRecipe_noNames (ids : List String) (ing : List Ingredient)
    (svc : List String → Except String Recipe) (hne : ids ≠ [])
    (h0 : selectedIngredientNames ids ing = []) :
    handleGenerateRecipe ids ing svc =
      [Step.setGenerating true, Step.setError none,
       Step.setError (some "Could not find names for selected ingredients."),
       Step.setGenerating false] := by
  have hlen : ids.length ≠ 0 := by
    simpa [List.length_eq_zero] using hne
  simp [handleGenerateRecipe, hlen, h0, Nat.pos_of_ne_zero hlen]

theorem handleGenerateRecipe_call (ids : List String) (ing : List Ingredient)
    (svc : List String → Except String Recipe) (hne : ids ≠ [])
    (hn0 : selectedIngredientNames ids ing ≠ []) :
    handleGenerateRecipe ids ing svc =
      Step.setGenerating true :: Step.setError none ::
      ((if (selectedIngredientNames ids ing).length ≠ ids.length then
          [Step.warn "Some selected ingredient IDs did not map to names."]
        else []) ++
        Step.callService (selectedIngredientNames ids ing) ::
        ((match svc (selectedIngredientNames ids ing) with
          | Except.ok recipe => [Step.deliverRecipe recipe]
          | Except.error err =>
              [Step.setError (some (if err = "" then
                "Failed to generate recipe. Please try again." else err))]) ++
         [Step.setGenerating false])) := by
  have hlen : ids.length ≠ 0 := by
    simpa [List.length_eq_zero] using hne
  have hnlen : (selectedIngredientNames ids ing).length ≠ 0 := by
    simpa [List.length_eq_zero] using hn0
  simp [handleGenerateRecipe, hlen, hnlen]

/-! ## Claim theorems -/

/-- C1: for every non-empty list of selected ids in which every id matches some
catalog entry by identity equality on id, `generate` invokes the service
client's `generateRecipe` with exactly one name list; that list has the length
of the selected-id list, and position `k` holds the `name` field of the
catalog entry matching the `k`-th selected id. -/
theorem generate_full_resolution (ids : List String) (ing : List Ingredient)
    (svc : List String → Except String Recipe)
    (hne : ids ≠ [])
    (hall : ∀ id ∈ ids, (ing.find? (fun i => i._id == id)).isSome) :
    serviceCalls (handleGenerateRecipe ids ing svc) =
      [selectedIngredientNames ids ing] ∧
    (selectedIngredientNames ids ing).length = ids.length ∧
    ∀ k : Nat, (selectedIngredientNames ids ing)[k]? =
      (ids[k]?.bind (fun id => ing.find? (fun i => i._id == id))).map Ingredient.name := by
  obtain ⟨hlen, hpos⟩ := selectedIngredientNames_all_some ids ing hall
  have hidlen : ids.length ≠ 0 := by
    simpa [List.length_eq_zero] using hne
  have hn0 : selectedIngredientNames ids ing ≠ [] := by
    intro hnil
    have := hlen
    rw [hnil] at this
    simp at this
    exact hidlen this.symm
  refine ⟨?_, hlen, hpos⟩
  rw [handleGenerateRecipe_call ids ing svc hne hn0, if_neg (fun h => h hlen)]
  cases hsvc : svc (selectedIngredientNames ids ing) <;> simp [serviceCalls]

/-- Witness for C1 at the spec's own example:
`selectedIds = ["a","b"]`, `catalog = [{id:"a",name:"Egg"},{id:"b",name:"Milk"}]`,
so the service is called with `["Egg","Milk"]`. -/
theorem generate_full_resolution_witness :
    serviceCalls (handleGenerateRecipe ["a", "b"]
      [Ingredient.mk "a" "Egg" "t0" "t0" none, Ingredient.mk "b" "Milk" "t0" "t0" none]
      (fun _ => Except.error "boom")) = [["Egg", "Milk"]] := by
  have h := generate_full_resolution ["a", "b"]
    [Ingredient.mk "a" "Egg" "t0" "t0" none, Ingredient.mk "b" "Milk" "t0" "t0" none]
    (fun _ => Except.error "boom") (by decide) (by decide)
  rw [h.1]
  rfl

/-- C2 (amended): for the empty selection the controller fails by setting the
error message "Please select ingredients first." (not the spec's literal
"no ingredients selected"), performs no network call, and never touches the
in-progress flag. -/
theorem generate_empty_selection (ing : List Ingredient)
    (svc : List String → Except String Recipe) :
    handleGenerateRecipe [] ing svc =
      [Step.setError (some "Please select ingredients first.")] ∧
    serviceCalls (handleGenerateRecipe [] ing svc) = [] ∧
    generatingUpdates (handleGenerateRecipe [] ing svc) = 0 := by
  refine ⟨handleGenerateRecipe_nil ing svc, ?_, ?_⟩ <;>
    rw [handleGenerateRecipe_nil] <;> rfl

/-- Counterexample for C2 as stated: on the empty selection the recorded
failure message is "Please select ingredients first.", and no step carrying
the claimed message "no ingredients selected" occurs. -/
theorem generate_empty_selection_counterexample :
    handleGenerateRecipe [] [] (fun _ => Except.error "boom") =
      [Step.setError (some "Please select ingredients first.")] ∧
    (handleGenerateRecipe [] [] (fun _ => Except.error "boom")).contains
      (Step.setError (some "no ingredients selected")) = false := by
  decide

/-- C3 (amended): for every non-empty selection in which no id matches any
catalog entry, the controller fails by setting the error message
"Could not find names for selected ingredients." (not the spec's literal
"no resolvable ingredient names") and performs no network call. -/
theorem generate_no_resolvable (ids : List String) (ing : List Ingredient)
    (svc : List String → Except String Recipe) (hne : ids ≠ [])
    (hnone : ∀ id ∈ ids, ing.find? (fun i => i._id == id) = none) :
    handleGenerateRecipe ids ing svc =
      [Step.setGenerating true, Step.setError none,
       Step.setError (some "Could not find names for selected ingredients."),
       Step.setGenerating false] ∧
    serviceCalls (handleGenerateRecipe ids ing svc) = [] := by
  have h0 := selectedIngredientNames_eq_nil ids ing hnone
  have ht := handleGenerateRecipe_noNames ids ing svc hne h0
  exact ⟨ht, by rw [ht]; rfl⟩

/-- Witness for C3 (amended) at `selectedIds = ["x"]` against a catalog that
only knows id "a". -/
theorem generate_no_resolvable_witness :
    handleGenerateRecipe ["x"] [Ingredient.mk "a" "Egg" "t0" "t0" none]
      (fun _ => Except.error "boom") =
      [Step.setGenerating true, Step.setError none,
       Step.setError (some "Could not find names for selected ingredients."),
       Step.setGenerating false] ∧
    serviceCalls (handleGenerateRecipe ["x"] [Ingredient.mk "a" "Egg" "t0" "t0" none]
      (fun _ => Except.error "boom")) = [] :=
  generate_no_resolvable ["x"] [Ingredient.mk "a" "Egg" "t0" "t0" none]
    (fun _ => Except.error "boom") (by decide) (by decide)

/-- Counterexample for C3 as stated: at `selectedIds = ["x"]` with an empty
catalog, the recorded failure message is
"Could not find names for selected ingredients."; no step carrying the claimed
message "no resolvable ingredient names" occurs. -/
theorem generate_no_resolvable_counterexample :
    handleGenerateRecipe ["x"] [] (fun _ => Except.error "boom") =
      [Step.setGenerating true, Step.setError none,
       Step.setError (some "Could not find names for selected ingredients."),
       Step.setGenerating false] ∧
    (handleGenerateRecipe ["x"] [] (fun _ => Except.error "boom")).contains
      (Step.setError (some "no resolvable ingredient names")) = false := by
  decide

/-- C4: for every non-empty selection in which at least one but not all ids
match a catalog entry, the controller proceeds: it warns (a `console.warn`,
not a failure — the only error-state steps before the call are
`setError none`), then calls the service with exactly the resolved names,
unmatched ids skipped and order preserved, a list shorter than the selection
but non-empty. -/
theorem generate_partial_resolution (ids : List String) (ing : List Ingredient)
    (svc : List String → Except String Recipe)
    (hsome : ∃ id ∈ ids, (ing.find? (fun i => i._id == id)).isSome)
    (hmiss : ∃ id ∈ ids, ing.find? (fun i => i._id == id) = none) :
    handleGenerateRecipe ids ing svc =
      Step.setGenerating true :: Step.setError none ::
      Step.warn "Some selected ingredient IDs did not map to names." ::
      Step.callService (selectedIngredientNames ids ing) ::
      ((match svc (selectedIngredientNames ids ing) with
        | Except.ok recipe => [Step.deliverRecipe recipe]
        | Except.error err =>
            [Step.setError (some (if err = "" then
              "Failed to generate recipe. Please try again." else err))]) ++
       [Step.setGenerating false]) ∧
    serviceCalls (handleGenerateRecipe ids ing svc) =
      [selectedIngredientNames ids ing] ∧
    warned (handleGenerateRecipe ids ing svc) = true ∧
    selectedIngredientNames ids ing =
      ids.filterMap (fun id => (ing.find? (fun i => i._id == id)).map Ingredient.name) ∧
    0 < (selectedIngredientNames ids ing).length ∧
    (selectedIngredientNames ids ing).length < ids.length := by
  have hne : ids ≠ [] := by
    rcases hsome with ⟨id, hid, _⟩
    exact List.ne_nil_of_mem hid
  have hn0 := selectedIngredientNames_ne_nil ids ing hsome
  have hlt := selectedIngredientNames_length_lt ids ing hmiss
  have ht := handleGenerateRecipe_call ids ing svc hne hn0
  rw [if_pos (Nat.ne_of_lt hlt), List.singleton_append] at ht
  refine ⟨ht, ?_, ?_, selectedIngredientNames_eq_filterMap ids ing,
    List.length_pos.mpr hn0, hlt⟩
  · rw [ht]
    cases hsvc : svc (selectedIngredientNames ids ing) <;> simp [serviceCalls]
  · rw [ht]
    cases hsvc : svc (selectedIngredientNames ids ing) <;> simp [warned]

/-- Witness for C4 at the spec's own example: `selectedIds = ["a","x"]`,
`catalog = [{id:"a",name:"Egg"}]`, so the service is called with `["Egg"]`
and a warning is emitted. -/
theorem generate_partial_resolution_witness :
    serviceCalls (handleGenerateRecipe ["a", "x"]
      [Ingredient.mk "a" "Egg" "t0" "t0" none]
      (fun _ => Except.error "boom")) = [["Egg"]] ∧
    warned (handleGenerateRecipe ["a", "x"]
      [Ingredient.mk "a" "Egg" "t0" "t0" none]
      (fun _ => Except.error "boom")) = true := by
  have h := generate_partial_resolution ["a", "x"]
    [Ingredient.mk "a" "Egg" "t0" "t0" none]
    (fun _ => Except.error "boom") (by decide) (by decide)
  exact ⟨by rw [h.2.1]; rfl, h.2.2.1⟩

/-- C7: a generate invocation that arrives while a previous one is still
pending (`isGenerating = true`) is ignored: the button is disabled, the click
performs no step at all, and in particular starts no second network call. -/
theorem generate_single_inflight (ids : List String) (ing : List Ingredient)
    (svc : List String → Except String Recipe) :
    clickGenerate true ids ing svc = [] ∧
    serviceCalls (clickGenerate true ids ing svc) = [] := by
  constructor <;> simp [clickGenerate, generateButtonDisabled, serviceCalls]

/-- C10: each occurrence of a selected id is resolved independently (name
resolution distributes over concatenation of selections, so duplicates are
not deduplicated), and when the catalog lists several entries with the same
id, every occurrence resolves to the name of the first matching entry. -/
theorem generate_duplicate_occurrences (ing pre suf : List Ingredient)
    (i : Ingredient) (id : String)
    (hing : ing = pre ++ i :: suf) (hid : i._id = id)
    (hpre : ∀ j ∈ pre, j._id ≠ id) :
    (∀ a b : List String, selectedIngredientNames (a ++ b) ing =
      selectedIngredientNames a ing ++ selectedIngredientNames b ing) ∧
    ∀ n : Nat, selectedIngredientNames (List.replicate n id) ing =
      List.replicate n i.name := by
  subst hing
  refine ⟨fun a b => selectedIngredientNames_append a b _, fun n => ?_⟩
  exact selectedIngredientNames_replicate _ id i
    (find?_first_match pre suf i id hid hpre) n

/-- Witness for C10: selecting "a" twice against a catalog holding two
entries with id "a" (names "Egg" then "Egg white") resolves to "Egg" twice. -/
theorem generate_duplicate_occurrences_witness :
    selectedIngredientNames (List.replicate 2 "a")
      [Ingredient.mk "a" "Egg" "t0" "t0" none,
       Ingredient.mk "a" "Egg white" "t0" "t0" none] = List.replicate 2 "Egg" :=
  (generate_duplicate_occurrences
    [Ingredient.mk "a" "Egg" "t0" "t0" none,
     Ingredient.mk "a" "Egg white" "t0" "t0" none]
    [] [Ingredient.mk "a" "Egg white" "t0" "t0" none]
    (Ingredient.mk "a" "Egg" "t0" "t0" none) "a" rfl rfl (by simp)).2 2

/-- C5: across every invocation of the controller and every outcome (success,
network failure, or validation short-circuit), the `isGenerating` flag starts
false (`useState(false)`, `isGeneratingAfter [] = false`), is false again once
the invocation has fully settled, and is true at the network call and at every
point from the call until settlement. -/
theorem generate_inflight_flag (ids : List String) (ing : List Ingredient)
    (svc : List String → Except String Recipe) :
    isGeneratingAfter ([] : List Step) = false ∧
    isGeneratingAfter (handleGenerateRecipe ids ing svc) = false ∧
    ∀ k j : Nat, ∀ ns : List String,
      (handleGenerateRecipe ids ing svc)[k]? = some (Step.callService ns) →
      k ≤ j → j < (handleGenerateRecipe ids ing svc).length →
      isGeneratingAfter ((handleGenerateRecipe ids ing svc).take j) = true := by
  by_cases hids : ids.length = 0
  · have hnil : ids = [] := List.length_eq_zero.mp hids
    subst hnil
    rw [handleGenerateRecipe_nil]
    refine ⟨rfl, rfl, ?_⟩
    intro k j ns hk hkj hj
    rcases k with _ | k <;> simp at hk
  · have hne : ids ≠ [] := fun h => hids (by simp [h])
    by_cases hn0 : selectedIngredientNames ids ing = []
    · rw [handleGenerateRecipe_noNames ids ing svc hne hn0]
      refine ⟨rfl, rfl, ?_⟩
      intro k j ns hk hkj hj
      rcases k with _ | _ | _ | _ | k <;> simp at hk
    · have ht := handleGenerateRecipe_call ids ing svc hne hn0
      by_cases hw : (selectedIngredientNames ids ing).length ≠ ids.length
      · rw [if_pos hw] at ht
        cases hsvc : svc (selectedIngredientNames ids ing) with
        | ok r =>
          rw [hsvc] at ht
          have ht2 : handleGenerateRecipe ids ing svc =
              [Step.setGenerating true, Step.setError none,
               Step.warn "Some selected ingredient IDs did not map to names.",
               Step.callService (selectedIngredientNames ids ing),
               Step.deliverRecipe r, Step.setGenerating false] := by
            rw [ht]; rfl
          rw [ht2]
          refine ⟨rfl, rfl, ?_⟩
          intro k j ns hk hkj hj
          simp only [List.length_cons, List.length_nil] at hj
          rcases k with _ | _ | _ | _ | _ | _ | k <;> simp at hk
          all_goals interval_cases j <;> rfl
        | error e =>
          rw [hsvc] at ht
          have ht2 : handleGenerateRecipe ids ing svc =
              [Step.setGenerating true, Step.setError none,
               Step.warn "Some selected ingredient IDs did not map to names.",
               Step.callService (selectedIngredientNames ids ing),
               Step.setError (some (if e = "" then
                 "Failed to generate recipe. Please try again." else e)),
               Step.setGenerating false] := by
            rw [ht]; rfl
          rw [ht2]
          refine ⟨rfl, rfl, ?_⟩
          intro k j ns hk hkj hj
          simp only [List.length_cons, List.length_nil] at hj
          rcases k with _ | _ | _ | _ | _ | _ | k <;> simp at hk
          all_goals interval_cases j <;> rfl
      · rw [if_neg hw] at ht
        cases hsvc : svc (selectedIngredientNames ids ing) with
        | ok r =>
          rw [hsvc] at ht
          have ht2 : handleGenerateRecipe ids ing svc =
              [Step.setGenerating true, Step.setError none,
               Step.callService (selectedIngredientNames ids ing),
               Step.deliverRecipe r, Step.setGenerating false] := by
            rw [ht]; rfl
          rw [ht2]
          refine ⟨rfl, rfl, ?_⟩
          intro k j ns hk hkj hj
          simp only [List.length_cons, List.length_nil] at hj
          rcases k with _ | _ | _ | _ | _ | k <;> simp at hk
          all_goals interval_cases j <;> rfl
        | error e =>
          rw [hsvc] at ht
          have ht2 : handleGenerateRecipe ids ing svc =
              [Step.setGenerating true, Step.setError none,
               Step.callService (selectedIngredientNames ids ing),
               Step.setError (some (if e = "" then
                 "Failed to generate recipe. Please try again." else e)),
               Step.setGenerating false] := by
            rw [ht]; rfl
          rw [ht2]
          refine ⟨rfl, rfl, ?_⟩
          intro k j ns hk hkj hj
          simp only [List.length_cons, List.length_nil] at hj
          rcases k with _ | _ | _ | _ | _ | k <;> simp at hk
          all_goals interval_cases j <;> rfl

/-- Witness for C5: a fully resolvable one-element selection with a succeeding
service call; the flag is true just after the network call step (position 3 of
the trace) and false after the whole invocation settles. -/
theorem generate_inflight_flag_witness :
    isGeneratingAfter (handleGenerateRecipe ["a"]
      [Ingredient.mk "a" "Egg" "t0" "t0" none]
      (fun _ => Except.ok (Recipe.mk "r1" ["Egg"] "T" "I" "t0" "t0" none))) = false ∧
    isGeneratingAfter ((handleGenerateRecipe ["a"]
      [Ingredient.mk "a" "Egg" "t0" "t0" none]
      (fun _ => Except.ok (Recipe.mk "r1" ["Egg"] "T" "I" "t0" "t0" none))).take 3) = true := by
  have h := generate_inflight_flag ["a"] [Ingredient.mk "a" "Egg" "t0" "t0" none]
    (fun _ => Except.ok (Recipe.mk "r1" ["Egg"] "T" "I" "t0" "t0" none))
  exact ⟨h.2.1, h.2.2 2 3 ["Egg"] (by decide) (by decide) (by decide)⟩

/-- C6: a success-status response whose decoded body lacks the `item` (for
`addIngredient`) or `recipe` (for `generateRecipe`) field — including a
missing body altogether — makes the operation fail with the
invalid-response-structure error; when the field is present the operation
returns exactly that nested field's value. -/
theorem api_malformed_envelope :
    (∀ (send : Request → Except String (Option ItemEnvelope)) (name : String)
        (env : Option ItemEnvelope),
      send (addIngredientRequest name) = Except.ok env →
      (env.bind ItemEnvelope.item = none →
        addIngredient send name = Except.error
          (ApiError.malformed "Invalid response structure from addIngredient API")) ∧
      ∀ it : Ingredient, env.bind ItemEnvelope.item = some it →
        addIngredient send name = Except.ok it) ∧
    ∀ (send : Request → Except String (Option RecipeEnvelope)) (names : List String)
        (env : Option RecipeEnvelope),
      send (generateRecipeRequest names) = Except.ok env →
      (env.bind RecipeEnvelope.recipe = none →
        generateRecipe send names = Except.error
          (ApiError.malformed "Invalid response structure from generateRecipe API")) ∧
      ∀ r : Recipe, env.bind RecipeEnvelope.recipe = some r →
        generateRecipe send names = Except.ok r := by
  constructor
  · intro send name env hsend
    unfold addIngredient
    rw [hsend]
    cases env with
    | none => simp
    | some data => cases hit : data.item <;> simp [hit]
  · intro send names env hsend
    unfold generateRecipe
    rw [hsend]
    cases env with
    | none => simp
    | some data => cases hit : data.recipe <;> simp [hit]

/-- Witness for C6: a success response with a missing body makes
`addIngredient` fail as malformed, and a well-formed envelope makes
`generateRecipe` return exactly the nested recipe. -/
theorem api_malformed_envelope_witness :
    addIngredient (fun _ => Except.ok none) "Egg" =
      Except.error (ApiError.malformed "Invalid response structure from addIngredient API") ∧
    generateRecipe (fun _ => Except.ok (some (RecipeEnvelope.mk (some "ok")
        (some (Recipe.mk "r1" ["Egg"] "T" "I" "t0" "t0" none))))) ["Egg"] =
      Except.ok (Recipe.mk "r1" ["Egg"] "T" "I" "t0" "t0" none) :=
  ⟨(api_malformed_envelope.1 (fun _ => Except.ok none) "Egg" none rfl).1 rfl,
   (api_malformed_envelope.2 (fun _ => Except.ok (some (RecipeEnvelope.mk (some "ok")
       (some (Recipe.mk "r1" ["Egg"] "T" "I" "t0" "t0" none))))) ["Egg"]
     (some (RecipeEnvelope.mk (some "ok")
       (some (Recipe.mk "r1" ["Egg"] "T" "I" "t0" "t0" none)))) rfl).2
     (Recipe.mk "r1" ["Egg"] "T" "I" "t0" "t0" none) rfl⟩

/-- C8: `addIngredient` sends a POST to `/items/add` with body `{item: name}`,
`generateRecipe` sends a POST to `/recipes/basket/generate-recipe` with body
`{items: names}`, the configured base URL ends in `/api/`, and each function
consults the transport only at its stated request. -/
theorem api_request_shapes (name : String) (names : List String) :
    addIngredientRequest name = Request.mk "POST" "/items/add" (Body.itemBody name) ∧
    generateRecipeRequest names =
      Request.mk "POST" "/recipes/basket/generate-recipe" (Body.itemsBody names) ∧
    (∃ p : String, API_BASE_URL = p ++ "/api/") ∧
    (∀ send : Request → Except String (Option ItemEnvelope),
      addIngredient send name =
        addIngredient (fun r => if r = addIngredientRequest name then send r
          else Except.error "other request") name) ∧
    ∀ send : Request → Except String (Option RecipeEnvelope),
      generateRecipe send names =
        generateRecipe (fun r => if r = generateRecipeRequest names then send r
          else Except.error "other request") names := by
  refine ⟨rfl, rfl,
    ⟨"https://recipe-generator-backend-vqb7.onrender.com", by rfl⟩, ?_, ?_⟩
  · intro send
    simp [addIngredient]
  · intro send
    simp [generateRecipe]

/-- C9: `fetchIngredients` issues GET `/items` and `fetchRecipeHistory` issues
GET `/recipes/history`; each returns the response body verbatim and
propagates a transport failure unchanged — the result is exactly the
transport's result at that request. -/
theorem api_list_passthrough (send : Request → Except String (List Ingredient))
    (send2 : Request → Except String (List Recipe)) :
    fetchIngredients send = send (Request.mk "GET" "/items" Body.empty) ∧
    fetchRecipeHistory send2 = send2 (Request.mk "GET" "/recipes/history" Body.empty) := by
  constructor
  · unfold fetchIngredients
    cases hs : send (Request.mk "GET" "/items" Body.empty) <;> rfl
  · unfold fetchRecipeHistory
    cases hs : send2 (Request.mk "GET" "/recipes/history" Body.empty) <;> rfl

end RecipeGen
